import Mathlib

/-!
Verification development for the HFT strategy simulator core.

The repository's `src/` holds the language-binding layer
(`src/bindings/pybind.bindings.cpp`): it registers every public class,
method, constructor signature (with default argument values), enum and
return-value policy of the core.  The C++ implementation headers
(`OrderBook.h`, `Metrics.h`, `Strategy.h`, `LatencyQueue.h`, ...) are not
part of `src/`, so the operational behaviour of those components is
modelled here from the specification, while everything the binding file
itself decides (accessor lambdas, constructor parameter lists and
defaults, registration order of enum values, return-value policies) is
embedded directly from that source.
-/

namespace HFTSim

/-! ### Enumerations

The binding registers the enum values in a fixed order
(`pybind.bindings.cpp` lines 67-76, 240-246, 304-308).  The numeric
enumerator values live in the missing headers; C++ assigns unscoped/scoped
enumerators without initializers consecutively from 0 in declaration
order, which is the order the binding registers them in. -/

/-- Action types of the latency queue, in the binding's registration
order: ORDER_SEND, CANCEL, MODIFY, ACKNOWLEDGE_FILL, MARKET_UPDATE. -/
inductive ActionType where
  | ORDER_SEND
  | CANCEL
  | MODIFY
  | ACKNOWLEDGE_FILL
  | MARKET_UPDATE
deriving Repr, DecidableEq

/-- Modelled from the spec: the numeric value of each `ActionType`
enumerator (the headers holding the C++ values are not in `src/`;
enumerators without initializers take 0,1,2,... in declaration order). -/
def ActionType.val : ActionType → Nat
  | .ORDER_SEND => 0
  | .CANCEL => 1
  | .MODIFY => 2
  | .ACKNOWLEDGE_FILL => 3
  | .MARKET_UPDATE => 4

/-- The binding's registration order of `ActionType` values. -/
def ActionType.registrationOrder : List ActionType :=
  [.ORDER_SEND, .CANCEL, .MODIFY, .ACKNOWLEDGE_FILL, .MARKET_UPDATE]

/-- `Metrics::Side`, registration order BUYS, SELLS. -/
inductive Side where
  | BUYS
  | SELLS
deriving Repr, DecidableEq

/-- Modelled from the spec: numeric value of each `Side` enumerator. -/
def Side.val : Side → Nat
  | .BUYS => 0
  | .SELLS => 1

/-- The binding's registration order of `Side` values. -/
def Side.registrationOrder : List Side := [.BUYS, .SELLS]

/-- `Metrics::MarkingMethod`, registration order MID, LAST. -/
inductive MarkingMethod where
  | MID
  | LAST
deriving Repr, DecidableEq

/-- Modelled from the spec: numeric value of each `MarkingMethod`
enumerator. -/
def MarkingMethod.val : MarkingMethod → Nat
  | .MID => 0
  | .LAST => 1

/-- The binding's registration order of `MarkingMethod` values. -/
def MarkingMethod.registrationOrder : List MarkingMethod := [.MID, .LAST]

/-- `Strategy::State`, registration order WAITING_TO_BUY, WAITING_TO_SELL,
BALANCED. -/
inductive StrategyState where
  | WAITING_TO_BUY
  | WAITING_TO_SELL
  | BALANCED
deriving Repr, DecidableEq

/-- Modelled from the spec: numeric value of each `Strategy::State`
enumerator. -/
def StrategyState.val : StrategyState → Nat
  | .WAITING_TO_BUY => 0
  | .WAITING_TO_SELL => 1
  | .BALANCED => 2

/-- The binding's registration order of `Strategy::State` values. -/
def StrategyState.registrationOrder : List StrategyState :=
  [.WAITING_TO_BUY, .WAITING_TO_SELL, .BALANCED]

/-- Error taxonomy of the spec: invalid input fails fast, missing entity
is reported to the caller. -/
inductive SimError where
  | invalidInput
  | missingEntity
deriving Repr, DecidableEq

/-! ### Order and Trade records -/

/-- The `Order` record, fields as registered by the binding
(`pybind.bindings.cpp` lines 23-33).  `long long` fields become `Int`,
the `int` quantity becomes `Int`, booleans become `Bool`. -/
structure Order where
  id : Int
  isBuy : Bool
  isActive : Bool
  priceTick : Int
  quantity : Int
  tsCreatedUs : Int
  tsLastUpdateUs : Int
deriving Repr, DecidableEq

/-- The `Trade` record, fields as registered by the binding
(`pybind.bindings.cpp` lines 38-47). -/
structure Trade where
  tradeId : Int
  priceTick : Int
  quantity : Int
  buyOrderId : Int
  sellOrderId : Int
  timestampUs : Int
  was_instant : Bool
deriving Repr, DecidableEq

/-! ### Trade log -/

/-- The trade log: an ordered sequence of trades. -/
structure TradeLog where
  trades : List Trade
deriving Repr, DecidableEq

/-- Modelled from the spec: `TradeLog::add_trade` appends to the
append-only sequence (spec section 4.2; the implementation header is not
in `src/`). -/
def TradeLog.add_trade (log : TradeLog) (t : Trade) : TradeLog :=
  ⟨log.trades ++ [t]⟩

/-- `TradeLog::get_trades` returns the stored sequence. -/
def TradeLog.get_trades (log : TradeLog) : List Trade :=
  log.trades

/-- Modelled from the spec: the trade log is append-only and the order
book is its sole producer (spec section 4.2), so the only mutating
operation the system ever applies to a trade log is `add_trade`. -/
inductive TradeLogOp where
  | add (t : Trade)
deriving Repr, DecidableEq

/-- Apply one trade-log operation. -/
def TradeLog.applyOp (log : TradeLog) : TradeLogOp → TradeLog
  | .add t => log.add_trade t

/-- Apply a sequence of trade-log operations, oldest first. -/
def TradeLog.applyOps (log : TradeLog) : List TradeLogOp → TradeLog
  | [] => log
  | op :: ops => (log.applyOp op).applyOps ops

/-! ### Order book

The two book sides are `std::map<long long, std::list<Order>>` values:
association lists whose keys are strictly increasing (the spec's
"ordered by price ascending", section 3).  The id lookup is an
association list from order id to the resting order. -/

/-- A price ladder: price level to the FIFO list of resting orders at
that level, keys ascending. -/
abbrev Ladder := List (Int × List Order)

/-- The keys of a ladder are strictly ascending, as in `std::map`
iteration order. -/
def LadderSorted (m : Ladder) : Prop :=
  m.Pairwise (fun a b => a.1 < b.1)

instance (m : Ladder) : Decidable (LadderSorted m) := by
  unfold LadderSorted
  infer_instance

/-- The order book state reachable through the binding's accessors:
bid ladder, ask ladder, id lookup, trade log. -/
structure OrderBook where
  buys : Ladder
  sells : Ladder
  order_lookup : List (Int × Order)
  trade_log : TradeLog
deriving Repr, DecidableEq

/-- `OrderBook::get_buys` (binding line 179). -/
def OrderBook.get_buys (b : OrderBook) : Ladder :=
  b.buys

/-- `OrderBook::get_sells` (binding line 181). -/
def OrderBook.get_sells (b : OrderBook) : Ladder :=
  b.sells

/-- `OrderBook::get_order_lookup` (binding line 183). -/
def OrderBook.get_order_lookup (b : OrderBook) : List (Int × Order) :=
  b.order_lookup

/-- `OrderBook::get_trade_log` (binding line 185). -/
def OrderBook.get_trade_log (b : OrderBook) : TradeLog :=
  b.trade_log

/-- The `get_best_bid` lambda of the binding (lines 213-219): none when
the bid map is empty, otherwise the entry at `rbegin()` — the last entry
of the ascending map, i.e. the highest price. -/
def OrderBook.get_best_bid (b : OrderBook) : Option (Int × List Order) :=
  b.get_buys.getLast?

/-- The `get_best_ask` lambda of the binding (lines 220-226): none when
the ask map is empty, otherwise the entry at `begin()` — the first entry
of the ascending map, i.e. the lowest price. -/
def OrderBook.get_best_ask (b : OrderBook) : Option (Int × List Order) :=
  b.get_sells.head?

/-- Find the order stored under an id in the lookup index. -/
def lookupOrder (lst : List (Int × Order)) (oid : Int) : Option Order :=
  (lst.find? (fun e => e.1 == oid)).map Prod.snd

/-- Remove the order with the given id from every price level, erasing
levels that become empty. -/
def removeFromLevels (levels : Ladder) (oid : Int) : Ladder :=
  (levels.map (fun e => (e.1, e.2.filter (fun o => !(o.id == oid))))).filter
    (fun e => !e.2.isEmpty)

/-- An id is present and active in the book. -/
def OrderBook.activeInBook (b : OrderBook) (oid : Int) : Bool :=
  match lookupOrder b.order_lookup oid with
  | some o => o.isActive
  | none => false

/-- Modelled from the spec: `OrderBook::cancel_order` (the implementation
header is not in `src/`).  Spec section 4.1: if the id is present and
active, remove the order from its price-level list and from the lookup
index, deactivate it, and return true; if absent or already inactive,
return false and leave the state unchanged. -/
def OrderBook.cancel_order (b : OrderBook) (oid : Int) : Bool × OrderBook :=
  match lookupOrder b.order_lookup oid with
  | none => (false, b)
  | some o =>
    if o.isActive then
      (true,
        { b with
          buys := if o.isBuy then removeFromLevels b.buys oid else b.buys
          sells := if o.isBuy then b.sells else removeFromLevels b.sells oid
          order_lookup := b.order_lookup.filter (fun e => !(e.1 == oid)) })
    else
      (false, b)

/-! ### Latency queue -/

/-- A scheduled latency-queue entry: execution time, FIFO sequence
number, action type (spec section 3). -/
structure LatencyEvent where
  execution_time_us : Int
  sequence_number : Nat
  action : ActionType
deriving Repr, DecidableEq

/-- The latency queue: ten latency bounds (min/max per action type, as
set by `reset_latency_profile`, binding lines 252-258) plus the pending
events. -/
structure LatencyQueue where
  order_send_min : Int
  order_send_max : Int
  cancel_min : Int
  cancel_max : Int
  modify_min : Int
  modify_max : Int
  acknowledge_fill_min : Int
  acknowledge_fill_max : Int
  market_update_min : Int
  market_update_max : Int
  events : List LatencyEvent
deriving Repr, DecidableEq

/-- The ten stored bounds, as a tuple, in the argument order of
`reset_latency_profile`. -/
def LatencyQueue.bounds (lq : LatencyQueue) :
    Int × Int × Int × Int × Int × Int × Int × Int × Int × Int :=
  (lq.order_send_min, lq.order_send_max, lq.cancel_min, lq.cancel_max,
   lq.modify_min, lq.modify_max, lq.acknowledge_fill_min,
   lq.acknowledge_fill_max, lq.market_update_min, lq.market_update_max)

/-- A min/max latency pair is valid when `0 ≤ min ≤ max`
(spec section 4.4). -/
def checkLatencyPair (mn mx : Int) : Bool :=
  decide (0 ≤ mn) && decide (mn ≤ mx)

/-- All five latency pairs are valid. -/
def validLatencyProfile (osMin osMax cMin cMax mMin mMax afMin afMax muMin muMax : Int) : Bool :=
  checkLatencyPair osMin osMax && checkLatencyPair cMin cMax &&
  checkLatencyPair mMin mMax && checkLatencyPair afMin afMax &&
  checkLatencyPair muMin muMax

/-- Modelled from the spec: `LatencyQueue::reset_latency_profile` (the
implementation header is not in `src/`).  Spec sections 4.4 and 7: the
bounds must satisfy `0 ≤ min ≤ max`; an invalid input fails fast at the
call site with an invalid-input error and the state is unchanged;
otherwise the ten bounds are all set.  The result pairs the (possibly
updated) state with the error, if any. -/
def LatencyQueue.reset_latency_profile (lq : LatencyQueue)
    (osMin osMax cMin cMax mMin mMax afMin afMax muMin muMax : Int) :
    LatencyQueue × Option SimError :=
  if !checkLatencyPair osMin osMax then (lq, some .invalidInput)
  else if !checkLatencyPair cMin cMax then (lq, some .invalidInput)
  else if !checkLatencyPair mMin mMax then (lq, some .invalidInput)
  else if !checkLatencyPair afMin afMax then (lq, some .invalidInput)
  else if !checkLatencyPair muMin muMax then (lq, some .invalidInput)
  else
    ({ lq with
       order_send_min := osMin, order_send_max := osMax
       cancel_min := cMin, cancel_max := cMax
       modify_min := mMin, modify_max := mMax
       acknowledge_fill_min := afMin, acknowledge_fill_max := afMax
       market_update_min := muMin, market_update_max := muMax }, none)

/-! ### Metrics -/

/-- `Metrics::Config`, fields as registered by the binding
(lines 79-85). -/
structure MetricsConfig where
  tick_size : Rat
  maker_rebate_per_share_ticks : Int
  taker_fee_per_share_ticks : Int
  return_bucket_interval_us : Int
  marking_method : MarkingMethod
deriving Repr, DecidableEq

/-- `Metrics::OrderCacheData`, fields as registered by the binding
(lines 88-95). -/
structure OrderCacheData where
  side : Side
  arrival_mark_price_ticks : Int
  arrival_timestamp_us : Int
  intended_quantity : Int
  remaining_qty : Int
  is_ioc : Int
deriving Repr, DecidableEq

/-- The `Metrics` state, fields as registered by the binding
(lines 98-133).  Money-like quantities are tick integers; only ratios,
volatility, Sharpe ratio and win rate are floating point, modelled as
rationals. -/
structure Metrics where
  config : MetricsConfig
  fees_ticks : Int
  position : Int
  average_entry_price_ticks : Int
  realized_pnl_ticks : Int
  unrealized_pnl_ticks : Int
  total_pnl_ticks : Int
  timestamp_series : List Int
  total_pnl_ticks_series : List Int
  realized_pnl_ticks_series : List Int
  unrealized_pnl_ticks_series : List Int
  spread_ticks_series : List Int
  market_price_ticks_series : List Int
  gross_traded_qty : Int
  resting_attempted_qty : Int
  resting_filled_qty : Int
  resting_cancelled_qty : Int
  total_slippage_ticks : Int
  equity_value_peak_ticks : Int
  max_dropdown_ticks : Int
  returns_series : List Int
  last_return_bucket_start_us : Int
  last_return_bucket_total_pnl_ticks : Int
  current_best_bid_price_ticks : Int
  current_best_ask_price_ticks : Int
  last_trade_price_ticks : Int
  last_mark_price_ticks : Int
  order_cache : List (Int × OrderCacheData)
  volatility : Rat
  sharpe_ratio : Rat
  gross_profit : Int
  gross_loss : Int
  win_rate : Rat
deriving DecidableEq

/-- A zeroed metrics state with the given configuration (the
default-constructed state). -/
def Metrics.init (cfg : MetricsConfig) : Metrics where
  config := cfg
  fees_ticks := 0
  position := 0
  average_entry_price_ticks := 0
  realized_pnl_ticks := 0
  unrealized_pnl_ticks := 0
  total_pnl_ticks := 0
  timestamp_series := []
  total_pnl_ticks_series := []
  realized_pnl_ticks_series := []
  unrealized_pnl_ticks_series := []
  spread_ticks_series := []
  market_price_ticks_series := []
  gross_traded_qty := 0
  resting_attempted_qty := 0
  resting_filled_qty := 0
  resting_cancelled_qty := 0
  total_slippage_ticks := 0
  equity_value_peak_ticks := 0
  max_dropdown_ticks := 0
  returns_series := []
  last_return_bucket_start_us := 0
  last_return_bucket_total_pnl_ticks := 0
  current_best_bid_price_ticks := 0
  current_best_ask_price_ticks := 0
  last_trade_price_ticks := 0
  last_mark_price_ticks := 0
  order_cache := []
  volatility := 0
  sharpe_ratio := 0
  gross_profit := 0
  gross_loss := 0
  win_rate := 0

/-- Modelled from the spec: `Metrics::on_market_price_update` (the
implementation header is not in `src/`).  Spec section 4.3: record the
mark (mid by integer division, or the last trade price, per the marking
method); recompute `unrealized = position × (mark − average_entry)`;
`total = realized + unrealized − fees`; append the sample to the
time-series; update peak equity and max drawdown; on crossing a
return-bucket boundary append the bucket's P&L change and advance the
bucket. -/
def Metrics.on_market_price_update (m : Metrics)
    (ts best_bid best_ask last_trade_price : Int) : Metrics :=
  let mark : Int :=
    match m.config.marking_method with
    | .MID => (best_bid + best_ask) / 2
    | .LAST => last_trade_price
  let unreal : Int := m.position * (mark - m.average_entry_price_ticks)
  let total : Int := m.realized_pnl_ticks + unreal - m.fees_ticks
  let peak : Int := max m.equity_value_peak_ticks total
  let dd : Int := max m.max_dropdown_ticks (peak - total)
  let bucketCrossed : Bool :=
    decide (m.last_return_bucket_start_us + m.config.return_bucket_interval_us ≤ ts)
  { m with
    current_best_bid_price_ticks := best_bid
    current_best_ask_price_ticks := best_ask
    last_trade_price_ticks := last_trade_price
    last_mark_price_ticks := mark
    unrealized_pnl_ticks := unreal
    total_pnl_ticks := total
    timestamp_series := m.timestamp_series ++ [ts]
    total_pnl_ticks_series := m.total_pnl_ticks_series ++ [total]
    realized_pnl_ticks_series := m.realized_pnl_ticks_series ++ [m.realized_pnl_ticks]
    unrealized_pnl_ticks_series := m.unrealized_pnl_ticks_series ++ [unreal]
    spread_ticks_series := m.spread_ticks_series ++ [best_ask - best_bid]
    market_price_ticks_series := m.market_price_ticks_series ++ [mark]
    equity_value_peak_ticks := peak
    max_dropdown_ticks := dd
    returns_series :=
      if bucketCrossed then
        m.returns_series ++ [total - m.last_return_bucket_total_pnl_ticks]
      else m.returns_series
    last_return_bucket_start_us :=
      if bucketCrossed then ts else m.last_return_bucket_start_us
    last_return_bucket_total_pnl_ticks :=
      if bucketCrossed then total else m.last_return_bucket_total_pnl_ticks }

/-! ### Strategy -/

/-- The ping-pong strategy state: references to metrics and order book,
the fixed parameters, the active order ids (0 = none), quoting state and
the owned latency queue (spec sections 3 and 4.5; binding lines
311-428).  Pong entries are `(price, order_id, quantity)` triples as the
binding's pong-list helpers expose them. -/
structure Strategy where
  metrics : Metrics
  book : OrderBook
  quote_size : Int
  tick_offset_from_mid : Int
  max_inventory : Int
  cancel_threshold_ticks : Int
  cooldown_between_requotes : Int
  active_buy_order_id : Int
  active_sell_order_id : Int
  last_pinged_mid_price_ticks : Int
  last_quote_time_us : Int
  state : StrategyState
  latency_queue : LatencyQueue
  buy_pongs : List (Int × Int × Int)
  sell_pongs : List (Int × Int × Int)
deriving DecidableEq

/-- `Strategy::get_active_buy_order_id` (binding line 354). -/
def Strategy.get_active_buy_order_id (s : Strategy) : Int :=
  s.active_buy_order_id

/-- `Strategy::get_active_sell_order_id` (binding line 355). -/
def Strategy.get_active_sell_order_id (s : Strategy) : Int :=
  s.active_sell_order_id

/-- Modelled from the spec: `Strategy::get_active_buy_order_data` (the
implementation header is not in `src/`).  Spec section 7: the accessor
fails with a missing-entity error when the active id is 0 — an id of 0
means no active order; otherwise it returns the order's data from the
book's id lookup (the binding, line 369, notes it may throw when there
is no active order). -/
def Strategy.get_active_buy_order_data (s : Strategy) : Except SimError Order :=
  if s.active_buy_order_id == 0 then .error .missingEntity
  else
    match lookupOrder s.book.order_lookup s.active_buy_order_id with
    | some o => .ok o
    | none => .error .missingEntity

/-- Modelled from the spec: `Strategy::get_active_sell_order_data`,
symmetric to the buy-side accessor. -/
def Strategy.get_active_sell_order_data (s : Strategy) : Except SimError Order :=
  if s.active_sell_order_id == 0 then .error .missingEntity
  else
    match lookupOrder s.book.order_lookup s.active_sell_order_id with
    | some o => .ok o
    | none => .error .missingEntity

/-- Modelled from the spec: `Strategy::set_latency_config` sets the
latency profile of the strategy's owned latency queue atomically (spec
section 6; binding lines 422-428 forward the same ten integers as
`reset_latency_profile`). -/
def Strategy.set_latency_config (s : Strategy)
    (osMin osMax cMin cMax mMin mMax afMin afMax muMin muMax : Int) :
    Strategy × Option SimError :=
  let r := s.latency_queue.reset_latency_profile
    osMin osMax cMin cMax mMin mMax afMin afMax muMin muMax
  ({ s with latency_queue := r.1 }, r.2)

/-! ### Binding registration facts

The facts below are transcriptions of registration data in
`src/bindings/pybind.bindings.cpp`: which methods are bound with which
pybind11 return-value policy, and which constructor parameters exist
with which defaults.  These are decided entirely by the binding source. -/

/-- pybind11 return-value policies used by the binding. -/
inductive ReturnValuePolicy where
  | automatic
  | copy
  | reference
  | referenceInternal
deriving Repr, DecidableEq

/-- A bound accessor method: class, method name, return-value policy. -/
structure BoundAccessor where
  cls : String
  method : String
  policy : ReturnValuePolicy
deriving Repr, DecidableEq

/-- The container-returning accessors of the core as registered by the
binding: `TradeLog::get_trades` with `return_value_policy::reference`
(line 56) and the four `OrderBook` accessors with
`return_value_policy::reference_internal` (lines 179-186). -/
def containerAccessors : List BoundAccessor :=
  [⟨"TradeLog", "get_trades", .reference⟩,
   ⟨"OrderBook", "get_buys", .referenceInternal⟩,
   ⟨"OrderBook", "get_sells", .referenceInternal⟩,
   ⟨"OrderBook", "get_order_lookup", .referenceInternal⟩,
   ⟨"OrderBook", "get_trade_log", .referenceInternal⟩]

/-- An accessor hands out a reference to an internal object that
outlives the call and permits mutation by the caller: the `reference`
and `reference_internal` policies return the C++ object by non-owning,
non-const reference (`reference_internal` additionally keeps the parent
alive while the reference exists — it does not prevent mutation, as the
binding's own comment at lines 169-174 states: "return references -
Python CAN modify!"). -/
def handsOutMutableRef (a : BoundAccessor) : Bool :=
  a.policy == .reference || a.policy == .referenceInternal

/-- A constructor parameter as registered with `py::arg`: its name and
whether it carries a default value. -/
structure BoundParam where
  pname : String
  hasDefault : Bool
deriving Repr, DecidableEq

/-- The parameter list of the one bound `SimulationEngine` constructor
(binding lines 504-518), in order. -/
def simulationEngineInitParams : List BoundParam :=
  [⟨"starting_timestamp_us", false⟩,
   ⟨"ending_timestamp_us", false⟩,
   ⟨"step_us", false⟩,
   ⟨"strategy_quote_size", true⟩,
   ⟨"strategy_tick_offset", true⟩,
   ⟨"strategy_max_inv", true⟩,
   ⟨"strategy_cancel_threshold", true⟩,
   ⟨"strategy_cooldown_between_requotes", true⟩,
   ⟨"starting_mid_price", true⟩,
   ⟨"start_spread", true⟩,
   ⟨"start_vol", true⟩,
   ⟨"min_volatility", true⟩,
   ⟨"start_fill_prob", true⟩]

/-- The parameter list of the one bound `MarketEngine` constructor
(binding lines 440-451), in order. -/
def marketEngineInitParams : List BoundParam :=
  [⟨"strategy_quote_size", true⟩,
   ⟨"strategy_tick_offset", true⟩,
   ⟨"strategy_max_inv", true⟩,
   ⟨"strategy_cancel_threshold", true⟩,
   ⟨"strategy_cooldown_between_requotes", true⟩,
   ⟨"starting_mid_price", true⟩,
   ⟨"start_spread", true⟩,
   ⟨"start_vol", true⟩,
   ⟨"min_volatility", true⟩,
   ⟨"start_fill_prob", true⟩]

/-- One character list is a contiguous sublist of another. -/
def charsPre : List Char → List Char → Bool
  | [], _ => true
  | _ :: _, [] => false
  | a :: as, b :: bs => a == b && charsPre as bs

/-- Substring test on character lists. -/
def charsSub (needle : List Char) : List Char → Bool
  | [] => charsPre needle []
  | b :: bs => charsPre needle (b :: bs) || charsSub needle bs

/-- A parameter name mentions a PRNG seed. -/
def mentionsSeed (s : String) : Bool :=
  charsSub "seed".toList s.toList

/-! ### Constructor defaults -/

/-- The full argument record of the bound `SimulationEngine` constructor.
Integral C++ parameters are `Int`; the three `double` parameters are
modelled as rationals (only literal identity of the defaults matters
here, not float arithmetic). -/
structure SimulationEngineArgs where
  starting_timestamp_us : Int
  ending_timestamp_us : Int
  step_us : Int
  strategy_quote_size : Int
  strategy_tick_offset : Int
  strategy_max_inv : Int
  strategy_cancel_threshold : Int
  strategy_cooldown_between_requotes : Int
  starting_mid_price : Int
  start_spread : Int
  start_vol : Rat
  min_volatility : Rat
  start_fill_prob : Rat
deriving Repr, DecidableEq

/-- The full argument record of the bound `MarketEngine` constructor. -/
structure MarketEngineArgs where
  strategy_quote_size : Int
  strategy_tick_offset : Int
  strategy_max_inv : Int
  strategy_cancel_threshold : Int
  strategy_cooldown_between_requotes : Int
  starting_mid_price : Int
  start_spread : Int
  start_vol : Rat
  min_volatility : Rat
  start_fill_prob : Rat
deriving Repr, DecidableEq

/-- Calling the bound `SimulationEngine` constructor: an omitted optional
argument (`none`) takes the `py::arg` default registered at binding
lines 508-517. -/
def mkSimulationEngineArgs (st en stp : Int)
    (qs tOff mi ct cd mp sp : Option Int) (sv mv fp : Option Rat) :
    SimulationEngineArgs where
  starting_timestamp_us := st
  ending_timestamp_us := en
  step_us := stp
  strategy_quote_size := qs.getD 1
  strategy_tick_offset := tOff.getD 1
  strategy_max_inv := mi.getD 10
  strategy_cancel_threshold := ct.getD 1
  strategy_cooldown_between_requotes := cd.getD 1
  starting_mid_price := mp.getD 10000
  start_spread := sp.getD 2
  start_vol := sv.getD 1
  min_volatility := mv.getD (1 / 2)
  start_fill_prob := fp.getD (3 / 10)

/-- Calling the bound `MarketEngine` constructor: an omitted optional
argument (`none`) takes the `py::arg` default registered at binding
lines 441-450. -/
def mkMarketEngineArgs
    (qs tOff mi ct cd mp sp : Option Int) (sv mv fp : Option Rat) :
    MarketEngineArgs where
  strategy_quote_size := qs.getD 1
  strategy_tick_offset := tOff.getD 1
  strategy_max_inv := mi.getD 10
  strategy_cancel_threshold := ct.getD 1
  strategy_cooldown_between_requotes := cd.getD 1
  starting_mid_price := mp.getD 10000
  start_spread := sp.getD 2
  start_vol := sv.getD 1
  min_volatility := mv.getD (1 / 2)
  start_fill_prob := fp.getD (3 / 10)

/-! ### Helper lemmas -/

/-- In a ladder with strictly ascending keys, the last entry is a member
and carries the maximum key. -/
theorem ladder_getLast?_max (l : Ladder) (x : Int × List Order)
    (hs : LadderSorted l) (h : l.getLast? = some x) :
    x ∈ l ∧ ∀ y ∈ l, y.1 ≤ x.1 := by
  induction l with
  | nil => simp at h
  | cons a t ih =>
    cases t with
    | nil =>
      simp at h
      subst h
      refine ⟨List.mem_singleton_self a, ?_⟩
      intro y hy
      rw [List.mem_singleton] at hy
      subst hy
      exact le_refl _
    | cons b' t' =>
      rw [List.getLast?_cons_cons] at h
      have hs' : LadderSorted (b' :: t') := (List.pairwise_cons.mp hs).2
      obtain ⟨hmem, hmax⟩ := ih hs' h
      refine ⟨List.mem_cons_of_mem a hmem, ?_⟩
      intro y hy
      rcases List.mem_cons.mp hy with hya | hyt
      · subst hya
        exact le_of_lt ((List.pairwise_cons.mp hs).1 x hmem)
      · exact hmax y hyt

/-- In a ladder with strictly ascending keys, the head entry is a member
and carries the minimum key. -/
theorem ladder_head?_min (l : Ladder) (x : Int × List Order)
    (hs : LadderSorted l) (h : l.head? = some x) :
    x ∈ l ∧ ∀ y ∈ l, x.1 ≤ y.1 := by
  cases l with
  | nil => simp at h
  | cons a t =>
    simp at h
    subst h
    refine ⟨List.mem_cons_self a t, ?_⟩
    intro y hy
    rcases List.mem_cons.mp hy with hya | hyt
    · subst hya
      exact le_refl _
    · exact le_of_lt ((List.pairwise_cons.mp hs).1 y hyt)

/-- Filtering an id out of the lookup index makes that id unfindable. -/
theorem lookupOrder_filter_self (l : List (Int × Order)) (oid : Int) :
    lookupOrder (l.filter (fun e => !(e.1 == oid))) oid = none := by
  unfold lookupOrder
  rw [List.find?_eq_none.mpr]
  · rfl
  · intro x hx
    have hpx := List.of_mem_filter hx
    simp only [Bool.not_eq_eq_eq_not, Bool.not_true, beq_eq_false_iff_ne] at hpx
    simp only [beq_iff_eq]
    exact hpx

/-- Applying any sequence of trade-log operations leaves every already
recorded trade in place: the old records are an unchanged initial
segment of the new log. -/
theorem applyOps_preserves_initial (ops : List TradeLogOp) (log : TradeLog) :
    ((log.applyOps ops).trades.take log.trades.length = log.trades) ∧
    (log.trades.length ≤ (log.applyOps ops).trades.length) := by
  induction ops generalizing log with
  | nil =>
    exact ⟨List.take_length log.trades, le_refl _⟩
  | cons op ops ih =>
    cases op with
    | add t =>
      have step : (log.applyOps (.add t :: ops)) = ((log.add_trade t).applyOps ops) := rfl
      obtain ⟨ihTake, ihLen⟩ := ih (log.add_trade t)
      have hlen : (log.add_trade t).trades.length = log.trades.length + 1 := by
        simp [TradeLog.add_trade]
      constructor
      · rw [step]
        have h1 : ((log.add_trade t).applyOps ops).trades.take log.trades.length
            = (((log.add_trade t).applyOps ops).trades.take
                (log.add_trade t).trades.length).take log.trades.length := by
          rw [List.take_take]
          congr 1
          rw [hlen]
          exact (Nat.min_eq_left (Nat.le_succ _)).symm
        rw [h1, ihTake]
        show (log.trades ++ [t]).take log.trades.length = log.trades
        exact List.take_left log.trades [t]
      · rw [step]
        calc log.trades.length ≤ (log.add_trade t).trades.length := by
              rw [hlen]; exact Nat.le_succ _
          _ ≤ ((log.add_trade t).applyOps ops).trades.length := ihLen

/-- A ladder still holds an order with the given id at some level. -/
def ladderHasId (m : Ladder) (oid : Int) : Bool :=
  m.any (fun e => e.2.any (fun o => o.id == oid))

/-- Removing an id from a ladder leaves no order with that id at any
level. -/
theorem removeFromLevels_free (m : Ladder) (oid : Int) :
    ladderHasId (removeFromLevels m oid) oid = false := by
  unfold ladderHasId removeFromLevels
  rw [List.any_eq_false]
  intro e he
  have he' := List.mem_of_mem_filter he
  rw [List.mem_map] at he'
  obtain ⟨a, -, rfl⟩ := he'
  simp only [Bool.not_eq_true, List.any_eq_false]
  intro o ho
  have hfo := List.of_mem_filter ho
  simp only [Bool.not_eq_eq_eq_not, Bool.not_true, beq_eq_false_iff_ne] at hfo
  simp [hfo]

/-! ### Sample states used by the witnesses -/

/-- A resting active buy order. -/
def sampleOrder : Order :=
  ⟨1, true, true, 100, 5, 0, 0⟩

/-- A second resting active buy order at a lower level. -/
def sampleOrder2 : Order :=
  ⟨2, true, true, 99, 3, 0, 0⟩

/-- A resting active sell order. -/
def sampleAsk1 : Order :=
  ⟨3, false, true, 102, 4, 0, 0⟩

/-- A second resting active sell order at a worse level. -/
def sampleAsk2 : Order :=
  ⟨4, false, true, 103, 6, 0, 0⟩

/-- A one-order book used by the cancel witness. -/
def sampleOrderBook : OrderBook where
  buys := [(100, [sampleOrder])]
  sells := []
  order_lookup := [(1, sampleOrder)]
  trade_log := ⟨[]⟩

/-- A two-sided, two-level book used by the best-bid/ask witness. -/
def sampleBook2 : OrderBook where
  buys := [(99, [sampleOrder2]), (100, [sampleOrder])]
  sells := [(102, [sampleAsk1]), (103, [sampleAsk2])]
  order_lookup :=
    [(1, sampleOrder), (2, sampleOrder2), (3, sampleAsk1), (4, sampleAsk2)]
  trade_log := ⟨[]⟩

/-- A latency queue with zeroed bounds and no pending events. -/
def sampleLQ : LatencyQueue :=
  ⟨0, 0, 0, 0, 0, 0, 0, 0, 0, 0, []⟩

/-- A metrics configuration. -/
def sampleConfig : MetricsConfig :=
  ⟨1, 0, 0, 1000, .MID⟩

/-- A strategy with no active buy order (id 0) and an active sell order
whose id is resolvable in the book's lookup. -/
def sampleStrategy : Strategy where
  metrics := Metrics.init sampleConfig
  book := sampleOrderBook
  quote_size := 1
  tick_offset_from_mid := 1
  max_inventory := 10
  cancel_threshold_ticks := 1
  cooldown_between_requotes := 1
  active_buy_order_id := 0
  active_sell_order_id := 1
  last_pinged_mid_price_ticks := 0
  last_quote_time_us := 0
  state := .BALANCED
  latency_queue := sampleLQ
  buy_pongs := []
  sell_pongs := []

/-! ### Claim theorems -/

/-- C8: the public enumerations have the exact bit-stable values:
ActionType maps ORDER_SEND=0, CANCEL=1, MODIFY=2, ACKNOWLEDGE_FILL=3,
MARKET_UPDATE=4; Side maps BUYS=0, SELLS=1; MarkingMethod maps MID=0,
LAST=1; Strategy.State maps WAITING_TO_BUY=0, WAITING_TO_SELL=1,
BALANCED=2 — and these values enumerate the binding's registration
order consecutively from 0. -/
theorem enum_values_bit_stable :
    ActionType.val .ORDER_SEND = 0 ∧ ActionType.val .CANCEL = 1 ∧
    ActionType.val .MODIFY = 2 ∧ ActionType.val .ACKNOWLEDGE_FILL = 3 ∧
    ActionType.val .MARKET_UPDATE = 4 ∧
    Side.val .BUYS = 0 ∧ Side.val .SELLS = 1 ∧
    MarkingMethod.val .MID = 0 ∧ MarkingMethod.val .LAST = 1 ∧
    StrategyState.val .WAITING_TO_BUY = 0 ∧
    StrategyState.val .WAITING_TO_SELL = 1 ∧
    StrategyState.val .BALANCED = 2 ∧
    ActionType.registrationOrder.map ActionType.val = [0, 1, 2, 3, 4] ∧
    Side.registrationOrder.map Side.val = [0, 1] ∧
    MarkingMethod.registrationOrder.map MarkingMethod.val = [0, 1] ∧
    StrategyState.registrationOrder.map StrategyState.val = [0, 1, 2] := by
  decide

/-- C6: at every sampled point of the metrics time-series the recorded
total P&L equals realized plus unrealized P&L minus accumulated fees:
after any `on_market_price_update` the scalar identity
`total = realized + unrealized − fees` holds, the sample appended to
each series is exactly the corresponding scalar, and the call does not
change `realized_pnl_ticks` or `fees_ticks`. -/
theorem sampled_total_pnl_identity (m : Metrics) (ts bid ask ltp : Int) :
    ((m.on_market_price_update ts bid ask ltp).total_pnl_ticks
      = (m.on_market_price_update ts bid ask ltp).realized_pnl_ticks
        + (m.on_market_price_update ts bid ask ltp).unrealized_pnl_ticks
        - (m.on_market_price_update ts bid ask ltp).fees_ticks) ∧
    ((m.on_market_price_update ts bid ask ltp).total_pnl_ticks_series.getLast?
      = some (m.on_market_price_update ts bid ask ltp).total_pnl_ticks) ∧
    ((m.on_market_price_update ts bid ask ltp).realized_pnl_ticks_series.getLast?
      = some (m.on_market_price_update ts bid ask ltp).realized_pnl_ticks) ∧
    ((m.on_market_price_update ts bid ask ltp).unrealized_pnl_ticks_series.getLast?
      = some (m.on_market_price_update ts bid ask ltp).unrealized_pnl_ticks) ∧
    ((m.on_market_price_update ts bid ask ltp).realized_pnl_ticks
      = m.realized_pnl_ticks) ∧
    ((m.on_market_price_update ts bid ask ltp).fees_ticks = m.fees_ticks) := by
  unfold Metrics.on_market_price_update
  refine ⟨rfl, ?_, ?_, ?_, rfl, rfl⟩ <;>
    simp [List.getLast?_concat]

/-- C7: every trade record is immutable after creation — the system's
only trade-log mutator is the append (`add_trade`), and applying any
sequence of log operations leaves each already appended record, with all
its fields, unchanged at its index; `cancel_order` does not touch the
trade log at all. -/
theorem trade_records_immutable (log : TradeLog) (ops : List TradeLogOp)
    (b : OrderBook) (oid : Int) :
    ((log.applyOps ops).trades.take log.trades.length = log.trades) ∧
    (log.trades.length ≤ (log.applyOps ops).trades.length) ∧
    ((b.cancel_order oid).2.trade_log = b.trade_log) := by
  obtain ⟨h1, h2⟩ := applyOps_preserves_initial ops log
  refine ⟨h1, h2, ?_⟩
  unfold OrderBook.cancel_order
  cases h : lookupOrder b.order_lookup oid with
  | none => rfl
  | some o =>
    by_cases ho : o.isActive = true
    · simp [ho]
    · simp [ho]

/-- C9 counterexample: the claim "no public accessor hands out a
long-lived mutable reference to an internal container" is false at
`OrderBook::get_buys`, which the binding registers with
`return_value_policy::reference_internal`. -/
theorem accessor_mutability_counterexample :
    ((⟨"OrderBook", "get_buys", .referenceInternal⟩ : BoundAccessor)
        ∈ containerAccessors) ∧
    handsOutMutableRef ⟨"OrderBook", "get_buys", .referenceInternal⟩ = true ∧
    (containerAccessors.all (fun a => !(handsOutMutableRef a)) = false) := by
  decide

/-- C9 amended: every container-returning accessor the claim cites
(`TradeLog::get_trades`, `OrderBook::get_buys` / `get_sells` /
`get_order_lookup` / `get_trade_log`) is registered with a `reference`
or `reference_internal` return-value policy and therefore hands out a
reference to the internal container that outlives the call and permits
mutation by external callers. -/
theorem all_container_accessors_hand_out_mutable_refs :
    containerAccessors.all handsOutMutableRef = true := by
  decide

/-- C1: the spec requires the PRNG seed to be an external parameter, but
the bound `SimulationEngine` and `MarketEngine` constructors — the only
way to configure a run — accept exactly the listed parameters, none of
which is (or mentions) a seed, so identical-seed reproducibility cannot
be established through the exposed interface. -/
theorem seed_not_a_constructor_parameter :
    (simulationEngineInitParams.map BoundParam.pname =
      ["starting_timestamp_us", "ending_timestamp_us", "step_us",
       "strategy_quote_size", "strategy_tick_offset", "strategy_max_inv",
       "strategy_cancel_threshold", "strategy_cooldown_between_requotes",
       "starting_mid_price", "start_spread", "start_vol", "min_volatility",
       "start_fill_prob"]) ∧
    (simulationEngineInitParams.all (fun p => !(mentionsSeed p.pname)) = true) ∧
    (marketEngineInitParams.map BoundParam.pname =
      ["strategy_quote_size", "strategy_tick_offset", "strategy_max_inv",
       "strategy_cancel_threshold", "strategy_cooldown_between_requotes",
       "starting_mid_price", "start_spread", "start_vol", "min_volatility",
       "start_fill_prob"]) ∧
    (marketEngineInitParams.all (fun p => !(mentionsSeed p.pname)) = true) := by
  decide

/-- C10: constructing `SimulationEngine` from only the three required
timestamps (and `MarketEngine` from no arguments) fills in exactly the
registered defaults quote_size=1, tick_offset=1, max_inv=10,
cancel_threshold=1, cooldown=1, mid_price=10000, spread=2, vol=1.0,
min_volatility=0.5, fill_prob=0.3, and the resulting argument records —
hence any behaviour computed from them — coincide with those of the
fully explicit calls. -/
theorem constructor_defaults_spec (st en stp : Int) :
    (mkSimulationEngineArgs st en stp none none none none none none none
        none none none
      = mkSimulationEngineArgs st en stp (some 1) (some 1) (some 10)
          (some 1) (some 1) (some 10000) (some 2) (some 1) (some (1 / 2))
          (some (3 / 10))) ∧
    (mkMarketEngineArgs none none none none none none none none none none
      = mkMarketEngineArgs (some 1) (some 1) (some 10) (some 1) (some 1)
          (some 10000) (some 2) (some 1) (some (1 / 2)) (some (3 / 10))) ∧
    (∀ (α : Type) (f : SimulationEngineArgs → α),
      f (mkSimulationEngineArgs st en stp none none none none none none
          none none none none)
        = f (mkSimulationEngineArgs st en stp (some 1) (some 1) (some 10)
            (some 1) (some 1) (some 10000) (some 2) (some 1)
            (some (1 / 2)) (some (3 / 10)))) ∧
    (∀ (α : Type) (g : MarketEngineArgs → α),
      g (mkMarketEngineArgs none none none none none none none none none
          none)
        = g (mkMarketEngineArgs (some 1) (some 1) (some 10) (some 1)
            (some 1) (some 10000) (some 2) (some 1) (some (1 / 2))
            (some (3 / 10)))) := by
  exact ⟨rfl, rfl, fun α f => rfl, fun α g => rfl⟩

/-- C2: for every book whose ladders have the ascending key order of
`std::map`, `get_best_bid` returns none iff the bid side is empty and
otherwise the entry `(p, orders-at-level p)` with `p` the maximum price
key of the bid map; `get_best_ask` returns none iff the ask side is
empty and otherwise the entry with the minimum price key of the ask
map. -/
theorem best_bid_ask_spec (b : OrderBook)
    (hb : LadderSorted b.get_buys) (hs : LadderSorted b.get_sells) :
    (b.get_best_bid = none ↔ b.get_buys = []) ∧
    (∀ p lvl, b.get_best_bid = some (p, lvl) →
      (p, lvl) ∈ b.get_buys ∧ ∀ q ∈ b.get_buys, q.1 ≤ p) ∧
    (b.get_best_ask = none ↔ b.get_sells = []) ∧
    (∀ p lvl, b.get_best_ask = some (p, lvl) →
      (p, lvl) ∈ b.get_sells ∧ ∀ q ∈ b.get_sells, p ≤ q.1) := by
  refine ⟨?_, ?_, ?_, ?_⟩
  · exact List.getLast?_eq_none_iff
  · intro p lvl h
    exact ladder_getLast?_max b.get_buys (p, lvl) hb h
  · exact List.head?_eq_none_iff
  · intro p lvl h
    exact ladder_head?_min b.get_sells (p, lvl) hs h

/-- C2 witness: on a concrete sorted two-level book the accessors pick
the maximal bid level and the minimal ask level. -/
theorem best_bid_ask_spec_witness :
    (((100 : Int), [sampleOrder]) ∈ sampleBook2.get_buys ∧
      ∀ q ∈ sampleBook2.get_buys, q.1 ≤ 100) ∧
    (((102 : Int), [sampleAsk1]) ∈ sampleBook2.get_sells ∧
      ∀ q ∈ sampleBook2.get_sells, 102 ≤ q.1) :=
  ⟨(best_bid_ask_spec sampleBook2 (by decide) (by decide)).2.1
      100 [sampleOrder] (by decide),
   (best_bid_ask_spec sampleBook2 (by decide) (by decide)).2.2.2
      102 [sampleAsk1] (by decide)⟩

/-- C3: `cancel_order` returns true iff the id is present and active;
on success the order is deactivated (gone from the lookup) and removed
from its side's price levels; on failure the whole book state is
unchanged; and a second `cancel_order` on the same id always returns
false (idempotence). -/
theorem cancel_order_spec (b : OrderBook) (oid : Int) :
    ((b.cancel_order oid).1 = true ↔ b.activeInBook oid = true) ∧
    ((b.cancel_order oid).1 = false → (b.cancel_order oid).2 = b) ∧
    ((b.cancel_order oid).1 = true →
      (b.cancel_order oid).2.activeInBook oid = false) ∧
    (∀ o, lookupOrder b.order_lookup oid = some o → o.isActive = true →
      (if o.isBuy then ladderHasId (b.cancel_order oid).2.buys oid
       else ladderHasId (b.cancel_order oid).2.sells oid) = false) ∧
    (((b.cancel_order oid).2.cancel_order oid).1 = false) := by
  unfold OrderBook.cancel_order OrderBook.activeInBook
  cases h : lookupOrder b.order_lookup oid with
  | none => simp [h]
  | some o =>
    by_cases ho : o.isActive = true
    · by_cases hby : o.isBuy = true
      · simp [h, ho, hby, lookupOrder_filter_self, removeFromLevels_free]
      · simp [h, ho, hby, lookupOrder_filter_self, removeFromLevels_free]
    · simp [h, ho]

/-- C3 witness: cancelling a present active order succeeds, removes it,
and a repeat (or a cancel of an unknown id) fails leaving the book
unchanged. -/
theorem cancel_order_spec_witness :
    sampleOrderBook.activeInBook 1 = true ∧
    (sampleOrderBook.cancel_order 1).1 = true ∧
    (sampleOrderBook.cancel_order 1).2.activeInBook 1 = false ∧
    ladderHasId (sampleOrderBook.cancel_order 1).2.buys 1 = false ∧
    ((sampleOrderBook.cancel_order 1).2.cancel_order 1).1 = false ∧
    (sampleOrderBook.cancel_order 2).1 = false ∧
    (sampleOrderBook.cancel_order 2).2 = sampleOrderBook :=
  ⟨by decide,
   (cancel_order_spec sampleOrderBook 1).1.mpr (by decide),
   (cancel_order_spec sampleOrderBook 1).2.2.1
     ((cancel_order_spec sampleOrderBook 1).1.mpr (by decide)),
   (cancel_order_spec sampleOrderBook 1).2.2.2.1
     sampleOrder (by decide) (by decide),
   (cancel_order_spec sampleOrderBook 1).2.2.2.2,
   by decide,
   (cancel_order_spec sampleOrderBook 2).2.1 (by decide)⟩

/-- C4: resetting the latency profile (directly or through
`Strategy.set_latency_config`) succeeds iff every one of the five pairs
satisfies `0 ≤ min ≤ max`; an invalid input fails fast with an
invalid-input error and leaves the stored bounds (indeed the whole
state) unchanged; a valid input sets all ten bounds. -/
theorem latency_profile_reset_spec (lq : LatencyQueue) (s : Strategy)
    (a1 a2 b1 b2 c1 c2 d1 d2 e1 e2 : Int) :
    ((lq.reset_latency_profile a1 a2 b1 b2 c1 c2 d1 d2 e1 e2).2 = none ↔
      validLatencyProfile a1 a2 b1 b2 c1 c2 d1 d2 e1 e2 = true) ∧
    ((lq.reset_latency_profile a1 a2 b1 b2 c1 c2 d1 d2 e1 e2).2 ≠ none →
      lq.reset_latency_profile a1 a2 b1 b2 c1 c2 d1 d2 e1 e2 =
        (lq, some .invalidInput)) ∧
    (validLatencyProfile a1 a2 b1 b2 c1 c2 d1 d2 e1 e2 = true →
      ((lq.reset_latency_profile a1 a2 b1 b2 c1 c2 d1 d2 e1 e2).1).bounds =
        (a1, a2, b1, b2, c1, c2, d1, d2, e1, e2)) ∧
    ((s.set_latency_config a1 a2 b1 b2 c1 c2 d1 d2 e1 e2).2 =
      (s.latency_queue.reset_latency_profile a1 a2 b1 b2 c1 c2 d1 d2 e1 e2).2) ∧
    ((s.set_latency_config a1 a2 b1 b2 c1 c2 d1 d2 e1 e2).1.latency_queue =
      (s.latency_queue.reset_latency_profile a1 a2 b1 b2 c1 c2 d1 d2 e1 e2).1) ∧
    ((s.set_latency_config a1 a2 b1 b2 c1 c2 d1 d2 e1 e2).2 ≠ none →
      (s.set_latency_config a1 a2 b1 b2 c1 c2 d1 d2 e1 e2).1 = s) := by
  unfold Strategy.set_latency_config LatencyQueue.reset_latency_profile
    validLatencyProfile LatencyQueue.bounds
  cases h1 : checkLatencyPair a1 a2 <;>
    cases h2 : checkLatencyPair b1 b2 <;>
      cases h3 : checkLatencyPair c1 c2 <;>
        cases h4 : checkLatencyPair d1 d2 <;>
          cases h5 : checkLatencyPair e1 e2 <;>
            simp_all

/-- C4 witness: a valid profile is accepted and stores all ten bounds; a
profile with min > max is rejected with the state unchanged, both
directly and through the strategy. -/
theorem latency_profile_reset_spec_witness :
    validLatencyProfile 1 2 1 2 1 2 1 2 1 2 = true ∧
    (sampleLQ.reset_latency_profile 1 2 1 2 1 2 1 2 1 2).1.bounds =
      (1, 2, 1, 2, 1, 2, 1, 2, 1, 2) ∧
    sampleLQ.reset_latency_profile 5 3 1 2 1 2 1 2 1 2 =
      (sampleLQ, some .invalidInput) ∧
    (sampleStrategy.set_latency_config 5 3 1 2 1 2 1 2 1 2).1 =
      sampleStrategy :=
  ⟨by decide,
   (latency_profile_reset_spec sampleLQ sampleStrategy
      1 2 1 2 1 2 1 2 1 2).2.2.1 (by decide),
   (latency_profile_reset_spec sampleLQ sampleStrategy
      5 3 1 2 1 2 1 2 1 2).2.1 (by decide),
   (latency_profile_reset_spec sampleLQ sampleStrategy
      5 3 1 2 1 2 1 2 1 2).2.2.2.2.2 (by decide)⟩

/-- C5: when the active buy (resp. sell) order id is 0 the corresponding
data accessor fails with a missing-entity error rather than returning
data; when the id is non-zero (and resolvable in the book's lookup, as
every live id is) the accessor returns the order's data. -/
theorem active_order_data_spec (s : Strategy) :
    (s.get_active_buy_order_id = 0 →
      s.get_active_buy_order_data = .error .missingEntity) ∧
    (∀ o : Order, s.get_active_buy_order_id ≠ 0 →
      lookupOrder s.book.order_lookup s.get_active_buy_order_id = some o →
      s.get_active_buy_order_data = .ok o) ∧
    (s.get_active_sell_order_id = 0 →
      s.get_active_sell_order_data = .error .missingEntity) ∧
    (∀ o : Order, s.get_active_sell_order_id ≠ 0 →
      lookupOrder s.book.order_lookup s.get_active_sell_order_id = some o →
      s.get_active_sell_order_data = .ok o) := by
  refine ⟨?_, ?_, ?_, ?_⟩
  · intro h
    unfold Strategy.get_active_buy_order_id at h
    unfold Strategy.get_active_buy_order_data
    simp [h]
  · intro o h hl
    unfold Strategy.get_active_buy_order_id at h hl
    unfold Strategy.get_active_buy_order_data
    simp [beq_eq_false_iff_ne.mpr h, hl]
  · intro h
    unfold Strategy.get_active_sell_order_id at h
    unfold Strategy.get_active_sell_order_data
    simp [h]
  · intro o h hl
    unfold Strategy.get_active_sell_order_id at h hl
    unfold Strategy.get_active_sell_order_data
    simp [beq_eq_false_iff_ne.mpr h, hl]

/-- C5 witness: with active buy id 0 the buy-data accessor fails with
the missing-entity error, while the non-zero sell id returns the
resting order's data. -/
theorem active_order_data_spec_witness :
    sampleStrategy.get_active_buy_order_id = 0 ∧
    sampleStrategy.get_active_buy_order_data = .error .missingEntity ∧
    sampleStrategy.get_active_sell_order_id ≠ 0 ∧
    sampleStrategy.get_active_sell_order_data = .ok sampleOrder :=
  ⟨by decide,
   (active_order_data_spec sampleStrategy).1 (by decide),
   by decide,
   (active_order_data_spec sampleStrategy).2.2.2
     sampleOrder (by decide) (by decide)⟩

end HFTSim
